import Mathlib

/-!
Verification of the authentication core of the FSM backend (`main.py`,
`schemas.py`).  Time is modelled as `Nat` (UTC seconds).  The external
leaves that are not part of the repository sources — the passlib password
hasher, the jose token codec and the Mongo credential store handle
(`database.py`) — are modelled from the specification's contracts for
them; every definition below that does so says it in its doc comment.
All remaining definitions are direct translations of `main.py`.
-/

namespace FSM

/-- Modelled from the spec: a passlib bcrypt digest (§4.1 Password Hasher).
A well-formed digest embeds the salt used to produce it; anything else is
a malformed digest.  The salt is threaded explicitly to model the
per-call salting. -/
inductive Digest where
  | hashed (plaintext : String) (salt : Nat)
  | malformed (text : String)
deriving DecidableEq, Repr

/-- Modelled from the spec: `CryptContext.hash` — salted one-way hash;
distinct salts yield distinct digests for the same input. -/
def cryptContext_hash (plaintext : String) (salt : Nat) : Digest :=
  Digest.hashed plaintext salt

/-- Modelled from the spec: `CryptContext.verify` — recomputes with the salt
embedded in the digest and compares; returns false for any malformed
digest rather than raising. -/
def cryptContext_verify (plaintext : String) : Digest → Bool
  | Digest.hashed p _ => plaintext == p
  | Digest.malformed _ => false

/-- `verify_password` from `main.py`, lines 62-63. -/
def verify_password (plain_password : String) (hashed_password : Digest) : Bool :=
  cryptContext_verify plain_password hashed_password

/-- `get_password_hash` from `main.py`, lines 66-67 (the salt parameter
models passlib's internal per-call salt). -/
def get_password_hash (password : String) (salt : Nat) : Digest :=
  cryptContext_hash password salt

/-- The claims carried by a token: the `sub` subject entry of the payload
dict (optional) and the `exp` expiry instant added at encoding time. -/
structure Claims where
  sub : Option String
  exp : Nat
deriving DecidableEq, Repr

/-- Modelled from the spec: a jose token string is either a well-formed
signed-claims string (carrying its claims and the MAC key it was signed
with) or malformed text. -/
inductive Jwt where
  | signed (claims : Claims) (key : String)
  | malformed (text : String)
deriving DecidableEq, Repr

/-- The jose error raised on signature mismatch, malformed payload or
passed expiry. -/
inductive JWTError where
  | invalidToken
deriving DecidableEq, Repr

/-- `SECRET_KEY` from `main.py`, line 24 (the compiled-in fallback;
the environment override is outside the model). -/
def SECRET_KEY : String := "dev-secret-change-me"

/-- `ACCESS_TOKEN_EXPIRE_MINUTES` from `main.py`, line 26. -/
def ACCESS_TOKEN_EXPIRE_MINUTES : Nat := 60 * 24

/-- Modelled from the spec: jose `jwt.encode` — signs the claims with the
process-wide key, returning the token string. -/
def jwt_encode (claims : Claims) (key : String) : Jwt :=
  Jwt.signed claims key

/-- Modelled from the spec: jose `jwt.decode` — verifies signature and
expiry; per §3 a token is valid only if signature verification succeeds
and the current time is before `exp`. -/
def jwt_decode (token : Jwt) (key : String) (now : Nat) : Except JWTError Claims :=
  match token with
  | Jwt.malformed _ => Except.error JWTError.invalidToken
  | Jwt.signed claims k =>
    if k = key then
      if now < claims.exp then Except.ok claims
      else Except.error JWTError.invalidToken
    else Except.error JWTError.invalidToken

/-- The payload dict passed to `create_access_token` (login passes
`\x7b"sub": email\x7d`; `exp` is added by the function itself). -/
structure TokenPayload where
  sub : Option String
deriving DecidableEq, Repr

/-- Python truthiness fallback `x or y` as applied to the optional
timedelta on `main.py` line 72: the default is substituted both when
`expires_delta` is `None` and when it is the falsy zero timedelta. -/
def orFalsy (x : Option Nat) (y : Nat) : Nat :=
  match x with
  | none => y
  | some d => if d = 0 then y else d

/-- `create_access_token` from `main.py`, lines 70-75.  `expires_delta`
and the default ttl are in seconds (`timedelta(minutes=1440)` = 86400 s);
`now` is the current UTC instant.  The `expires_delta or default`
fallback is Python truthiness (`orFalsy`), so a zero `expires_delta`
also falls back to the 24 h default. -/
def create_access_token (data : TokenPayload) (expires_delta : Option Nat) (now : Nat) : Jwt :=
  let expire := now + orFalsy expires_delta (ACCESS_TOKEN_EXPIRE_MINUTES * 60)
  jwt_encode { sub := data.sub, exp := expire } SECRET_KEY

/-- A document of the `authuser` collection as `main.py` reads it:
`name`, `email` and the Mongo `_id` (field `oid` here) are present on
every record the app writes; `password_hash`, `role`, `is_active` and
`organization` are read defensively with `.get`, so they are optional. -/
structure AuthUserDoc where
  oid : String
  name : String
  email : String
  password_hash : Option Digest
  role : Option String
  is_active : Option Bool
  organization : Option String
deriving DecidableEq, Repr

/-- Modelled from the spec: the `authuser` collection of the credential
store (`database.py` is not among the sources; §6 requires only
lookup-by-email and insert). -/
abbrev Store := List AuthUserDoc

/-- Mongo `find_one(\x7b"email": email\x7d)` on the `authuser` collection:
the first document whose `email` field equals the queried value. -/
def find_one_by_email (store : Store) (email : String) : Option AuthUserDoc :=
  store.find? (fun d => d.email == email)

/-- Modelled from the spec: Mongo `insert_one` generates a fresh `_id`
whose `str` rendering is never empty (scenario 1: returned id
non-empty). -/
def newObjectId (store : Store) : String :=
  "oid" ++ toString store.length

/-- The value FastAPI renders an `HTTPException` as: status code, detail
message and extra response headers (empty when none were passed). -/
structure HTTPException where
  status_code : Nat
  detail : String
  headers : List (String × String) := []
deriving DecidableEq, Repr

/-- `get_user_by_email` from `main.py`, lines 78-81: 500 when the store
handle is `None`, otherwise the `find_one` result. -/
def get_user_by_email (db : Option Store) (email : String) :
    Except HTTPException (Option AuthUserDoc) :=
  match db with
  | none => Except.error { status_code := 500, detail := "Database not configured" }
  | some store => Except.ok (find_one_by_email store email)

/-- `UserPublic` from `main.py`, lines 39-45. -/
structure UserPublic where
  id : Option String := none
  name : String
  email : String
  role : String := "owner"
  is_active : Bool := true
  organization : Option String := none
deriving DecidableEq, Repr

/-- `UserCreate` from `main.py`, lines 47-51: the registration request
schema, which exposes no `role` or `is_active` field. -/
structure UserCreate where
  name : String
  email : String
  password : String
  organization : Option String := none
deriving DecidableEq, Repr

/-- The `Token` response model from `main.py`, lines 32-34. -/
structure Token where
  access_token : Jwt
  token_type : String := "bearer"
deriving DecidableEq, Repr

/-- The `credentials_exception` value built in `get_current_user`
(`main.py`, lines 85-89). -/
def credentials_exception : HTTPException :=
  { status_code := 401
  , detail := "Could not validate credentials"
  , headers := [("WWW-Authenticate", "Bearer")] }

/-- `get_current_user` from `main.py`, lines 84-108: decode the token
(any `JWTError` becomes the generic 401), require a `sub` claim, look the
subject up in the store (the 500 from `get_user_by_email` propagates),
and build the `UserPublic` response from the record's fields with the
source's `.get` defaults. -/
def get_current_user (db : Option Store) (now : Nat) (token : Jwt) :
    Except HTTPException UserPublic :=
  match jwt_decode token SECRET_KEY now with
  | Except.error _ => Except.error credentials_exception
  | Except.ok payload =>
    match payload.sub with
    | none => Except.error credentials_exception
    | some email =>
      match get_user_by_email db email with
      | Except.error e => Except.error e
      | Except.ok none => Except.error credentials_exception
      | Except.ok (some user) =>
        Except.ok
          { id := some user.oid
          , name := user.name
          , email := user.email
          , role := user.role.getD "owner"
          , is_active := user.is_active.getD true
          , organization := user.organization }

/-- `register` from `main.py`, lines 146-162: 500 when the store handle
is `None`; 400 when a record with the email already exists; otherwise
hash the password, insert the document (with `role` "owner" and
`is_active` true) and return the new store together with the
`UserPublic` response.  The salt models passlib's per-call salt. -/
def register (db : Option Store) (user : UserCreate) (salt : Nat) :
    Except HTTPException (Store × UserPublic) :=
  match db with
  | none => Except.error { status_code := 500, detail := "Database not configured" }
  | some store =>
    match find_one_by_email store user.email with
    | some _ => Except.error { status_code := 400, detail := "Email already registered" }
    | none =>
      let doc : AuthUserDoc :=
        { oid := newObjectId store
        , name := user.name
        , email := user.email
        , password_hash := some (get_password_hash user.password salt)
        , role := some "owner"
        , is_active := some true
        , organization := user.organization }
      Except.ok (store ++ [doc],
        { id := some doc.oid
        , name := user.name
        , email := user.email
        , role := "owner"
        , is_active := true
        , organization := user.organization })

/-- `login` from `main.py`, lines 165-171: look the user up by the
submitted username (the 500 from an unconfigured store propagates); if
no record exists, or `verify_password` fails against the record's
`password_hash` (defaulting to the empty string, a malformed digest,
when the field is missing), reject with the single generic 400;
otherwise issue a token with `sub` set to the record's email. -/
def login (db : Option Store) (now : Nat) (username password : String) :
    Except HTTPException Token :=
  match get_user_by_email db username with
  | Except.error e => Except.error e
  | Except.ok none =>
    Except.error { status_code := 400, detail := "Incorrect email or password" }
  | Except.ok (some user) =>
    if verify_password password (user.password_hash.getD (Digest.malformed "")) then
      Except.ok { access_token := create_access_token { sub := some user.email } none now }
    else
      Except.error { status_code := 400, detail := "Incorrect email or password" }

/-- The `UserPublic` value `get_current_user` builds from a found record:
the record's public fields with the source's `.get` defaults, and never
its `password_hash`. -/
def public_of (doc : AuthUserDoc) : UserPublic :=
  { id := some doc.oid
  , name := doc.name
  , email := doc.email
  , role := doc.role.getD "owner"
  , is_active := doc.is_active.getD true
  , organization := doc.organization }

/-- Success characterisation of the identity resolver over a configured
store: it returns `u` exactly when the token decodes, carries a subject,
the subject is found in the store, and `u` is built from that record's
public fields. -/
theorem get_current_user_ok_iff (store : Store) (now : Nat) (tok : Jwt) (u : UserPublic) :
    get_current_user (some store) now tok = Except.ok u ↔
      ∃ claims email doc,
        jwt_decode tok SECRET_KEY now = Except.ok claims ∧
        claims.sub = some email ∧
        find_one_by_email store email = some doc ∧
        u = public_of doc := by
  unfold get_current_user get_user_by_email
  cases hdec : jwt_decode tok SECRET_KEY now with
  | error e => simp
  | ok claims =>
    cases hsub : claims.sub with
    | none => simp [hsub]
    | some email =>
      cases hfind : find_one_by_email store email with
      | none => simp [hsub, hfind, credentials_exception]
      | some doc =>
        simp only [hsub, hfind]
        constructor
        · intro h
          exact ⟨claims, email, doc, rfl, hsub, hfind, by
            cases h; rfl⟩
        · rintro ⟨c, e, d, hc, hs, hf, rfl⟩
          cases hc
          rw [hsub] at hs
          cases hs
          rw [hfind] at hf
          cases hf
          rfl

/-- C9: for every plaintext and every malformed digest, `verify_password`
returns false; in the model verification is a total Boolean function, so
it fails closed and never throws. -/
theorem verify_password_malformed_fails_closed (plaintext text : String) :
    verify_password plaintext (Digest.malformed text) = false := rfl

/-- C2 counterexample: the claim as stated fails at ttl = 0.  A token
encoded at time 0 with a zero `expires_delta`, decoded at time 1 — after
the stated ttl has elapsed — does not fail with `InvalidToken`: Python's
`or` fallback replaces the falsy zero timedelta with the 24 h default,
so the token still decodes to its claims with expiry 86400. -/
theorem token_zero_ttl_counterexample :
    jwt_decode (create_access_token { sub := some "a@x.com" } (some 0) 0) SECRET_KEY 1 =
      Except.ok { sub := some "a@x.com", exp := 86400 } ∧
    (Except.ok { sub := some "a@x.com", exp := 86400 } :
        Except JWTError Claims) ≠ Except.error JWTError.invalidToken := by
  refine ⟨rfl, ?_⟩
  intro h
  exact Except.noConfusion h

/-- C2 (amended): decoding the token produced by `create_access_token`
returns the claims unchanged, with expiry `now` plus the effective ttl,
whenever decoding happens before the effective ttl has elapsed, and
fails with `InvalidToken` whenever it happens after — where the
effective ttl is `expires_delta` when that is a nonzero timedelta and
the 24 h default when it is absent or zero (Python's `or` fallback). -/
theorem token_encode_decode_effective_ttl (data : TokenPayload)
    (expires_delta : Option Nat) (now now2 : Nat) :
    (now2 < now + orFalsy expires_delta (ACCESS_TOKEN_EXPIRE_MINUTES * 60) →
      jwt_decode (create_access_token data expires_delta now) SECRET_KEY now2 =
        Except.ok { sub := data.sub
                  , exp := now + orFalsy expires_delta (ACCESS_TOKEN_EXPIRE_MINUTES * 60) }) ∧
    (now + orFalsy expires_delta (ACCESS_TOKEN_EXPIRE_MINUTES * 60) < now2 →
      jwt_decode (create_access_token data expires_delta now) SECRET_KEY now2 =
        Except.error JWTError.invalidToken) := by
  constructor
  · intro h
    simp [create_access_token, jwt_encode, jwt_decode, h]
  · intro h
    have h2 : ¬ now2 < now + orFalsy expires_delta (ACCESS_TOKEN_EXPIRE_MINUTES * 60) := by
      omega
    simp [create_access_token, jwt_encode, jwt_decode, h2]

/-- Witness for the amended C2 at a concrete input: a token issued at
time 0 with the default ttl decodes at time 10 to its claims with expiry
86400. -/
theorem token_encode_decode_effective_ttl_witness :
    jwt_decode (create_access_token { sub := some "a@x.com" } none 0) SECRET_KEY 10 =
      Except.ok { sub := some "a@x.com"
                , exp := 0 + orFalsy none (ACCESS_TOKEN_EXPIRE_MINUTES * 60) } :=
  (token_encode_decode_effective_ttl { sub := some "a@x.com" } none 0 10).1 (by decide)

/-- C3: login over a configured store rejects with the identical
400 "Incorrect email or password" value both when no record exists for
the submitted email and when a record exists but password verification
fails — no distinction between the two causes. -/
theorem login_uniform_generic_error (store : Store) (now : Nat) (username password : String) :
    (find_one_by_email store username = none →
      login (some store) now username password =
        Except.error { status_code := 400, detail := "Incorrect email or password" }) ∧
    (∀ user, find_one_by_email store username = some user →
      verify_password password (user.password_hash.getD (Digest.malformed "")) = false →
      login (some store) now username password =
        Except.error { status_code := 400, detail := "Incorrect email or password" }) := by
  constructor
  · intro h
    simp [login, get_user_by_email, h]
  · intro user h hv
    simp [login, get_user_by_email, h, hv]

/-- Witness for C3 at a concrete input: login against the empty store is
rejected with the generic 400. -/
theorem login_uniform_generic_error_witness :
    login (some []) 0 "a@x.com" "wrong" =
      Except.error { status_code := 400, detail := "Incorrect email or password" } :=
  (login_uniform_generic_error [] 0 "a@x.com" "wrong").1 rfl

/-- C4: every credential-fault rejection of the identity resolver —
malformed token, wrong signing key, passed expiry, missing `sub` claim,
or no matching record — produces the identical error value, whose status
is 401, whose detail is the generic message, and which carries the
WWW-Authenticate Bearer challenge header. -/
theorem resolver_uniform_unauthorized (store : Store) (now : Nat) :
    credentials_exception =
      { status_code := 401, detail := "Could not validate credentials"
      , headers := [("WWW-Authenticate", "Bearer")] } ∧
    (∀ text, get_current_user (some store) now (Jwt.malformed text) =
      Except.error credentials_exception) ∧
    (∀ claims key, key ≠ SECRET_KEY →
      get_current_user (some store) now (Jwt.signed claims key) =
        Except.error credentials_exception) ∧
    (∀ claims, claims.exp ≤ now →
      get_current_user (some store) now (Jwt.signed claims SECRET_KEY) =
        Except.error credentials_exception) ∧
    (∀ e, now < e →
      get_current_user (some store) now (Jwt.signed { sub := none, exp := e } SECRET_KEY) =
        Except.error credentials_exception) ∧
    (∀ email e, now < e → find_one_by_email store email = none →
      get_current_user (some store) now
          (Jwt.signed { sub := some email, exp := e } SECRET_KEY) =
        Except.error credentials_exception) := by
  refine ⟨rfl, ?_, ?_, ?_, ?_, ?_⟩
  · intro text
    simp [get_current_user, jwt_decode]
  · intro claims key hk
    simp [get_current_user, jwt_decode, hk]
  · intro claims hexp
    have h2 : ¬ now < claims.exp := by omega
    simp [get_current_user, jwt_decode, h2]
  · intro e he
    simp [get_current_user, jwt_decode, he]
  · intro email e he hfind
    simp [get_current_user, jwt_decode, get_user_by_email, he, hfind]

/-- Witness for C4 at a concrete input: a token without a `sub` claim is
rejected with the generic 401. -/
theorem resolver_uniform_unauthorized_witness :
    get_current_user (some []) 0 (Jwt.signed { sub := none, exp := 5 } SECRET_KEY) =
      Except.error credentials_exception :=
  (resolver_uniform_unauthorized [] 0).2.2.2.2.1 5 (by decide)

/-- C5: with the store handle absent, identity resolution fails with the
500 "Database not configured" error — distinct from the 401 — exactly
when token decoding succeeded and a `sub` claim was extracted; when the
decode fails or the `sub` claim is missing, the 401 is raised first and
the store is never consulted. -/
theorem resolver_unconfigured_store_500 (now : Nat) (tok : Jwt) :
    (∀ claims email, jwt_decode tok SECRET_KEY now = Except.ok claims →
      claims.sub = some email →
      get_current_user none now tok =
        Except.error { status_code := 500, detail := "Database not configured" }) ∧
    (∀ e, jwt_decode tok SECRET_KEY now = Except.error e →
      get_current_user none now tok = Except.error credentials_exception) ∧
    (∀ claims, jwt_decode tok SECRET_KEY now = Except.ok claims → claims.sub = none →
      get_current_user none now tok = Except.error credentials_exception) := by
  refine ⟨?_, ?_, ?_⟩
  · intro claims email hdec hsub
    simp [get_current_user, hdec, hsub, get_user_by_email]
  · intro e hdec
    simp [get_current_user, hdec]
  · intro claims hdec hsub
    simp [get_current_user, hdec, hsub]

/-- Witness for C5 at a concrete input: a well-signed unexpired token with
a subject, resolved with an absent store handle, yields the 500. -/
theorem resolver_unconfigured_store_500_witness :
    get_current_user none 0 (Jwt.signed { sub := some "a@x.com", exp := 5 } SECRET_KEY) =
      Except.error { status_code := 500, detail := "Database not configured" } :=
  (resolver_unconfigured_store_500 0
      (Jwt.signed { sub := some "a@x.com", exp := 5 } SECRET_KEY)).1
    { sub := some "a@x.com", exp := 5 } "a@x.com" rfl rfl

/-- C7: the resolver never checks `is_active`: a valid token whose subject
matches an existing record resolves to an Authenticated Identity even
when the record's `is_active` field is false (and the identity carries
that false flag through). -/
theorem resolver_ignores_is_active (store : Store) (now e : Nat) (email : String)
    (doc : AuthUserDoc) (hfind : find_one_by_email store email = some doc)
    (hinactive : doc.is_active = some false) (hexp : now < e) :
    get_current_user (some store) now (Jwt.signed { sub := some email, exp := e } SECRET_KEY) =
      Except.ok
        { id := some doc.oid, name := doc.name, email := doc.email
        , role := doc.role.getD "owner", is_active := false
        , organization := doc.organization } := by
  rw [get_current_user_ok_iff]
  exact ⟨{ sub := some email, exp := e }, email, doc, by simp [jwt_decode, hexp], rfl, hfind,
    by simp [public_of, hinactive]⟩

/-- Witness for C7 at a concrete input: an inactive record still resolves. -/
theorem resolver_ignores_is_active_witness :
    get_current_user
        (some [{ oid := "oid0", name := "A", email := "a@x.com"
               , password_hash := some (Digest.hashed "pw123" 0)
               , role := some "owner", is_active := some false
               , organization := some "Acme" }]) 0
        (Jwt.signed { sub := some "a@x.com", exp := 5 } SECRET_KEY) =
      Except.ok
        { id := some "oid0", name := "A", email := "a@x.com"
        , role := "owner", is_active := false, organization := some "Acme" } :=
  resolver_ignores_is_active
    [{ oid := "oid0", name := "A", email := "a@x.com"
     , password_hash := some (Digest.hashed "pw123" 0)
     , role := some "owner", is_active := some false
     , organization := some "Acme" }] 0 5 "a@x.com"
    { oid := "oid0", name := "A", email := "a@x.com"
    , password_hash := some (Digest.hashed "pw123" 0)
    , role := some "owner", is_active := some false
    , organization := some "Acme" } (by decide) rfl (by decide)

/-- C1: a token obtained by a successful login, passed to the identity
resolver over the same store at any instant before the token's 24 h
expiry, yields an Authenticated Identity whose email equals the logged-in
user's email. -/
theorem login_identity_roundtrip (store : Store) (now now2 : Nat)
    (username password : String) (tok : Token)
    (h : login (some store) now username password = Except.ok tok)
    (h2 : now2 < now + ACCESS_TOKEN_EXPIRE_MINUTES * 60) :
    ∃ u, get_current_user (some store) now2 tok.access_token = Except.ok u ∧
      u.email = username := by
  cases hfind : find_one_by_email store username with
  | none =>
    simp [login, get_user_by_email, hfind] at h
  | some user =>
    have hfind2 : store.find? (fun d => d.email == username) = some user := hfind
    have hemail : user.email = username := by
      have hp := List.find?_some hfind2
      simpa using hp
    by_cases hv : verify_password password (user.password_hash.getD (Digest.malformed "")) = true
    · simp [login, get_user_by_email, hfind, hv] at h
      refine ⟨public_of user, ?_, by simp [public_of, hemail]⟩
      rw [get_current_user_ok_iff]
      refine ⟨{ sub := some user.email
              , exp := now + ACCESS_TOKEN_EXPIRE_MINUTES * 60 }, user.email, user, ?_, rfl,
          hemail ▸ hfind, rfl⟩
      rw [← h]
      simp [create_access_token, orFalsy, jwt_encode, jwt_decode, h2]
    · simp [login, get_user_by_email, hfind, hv] at h

/-- Witness for C1 at a concrete input: login followed by resolution over
a one-record store recovers the user's email. -/
theorem login_identity_roundtrip_witness :
    ∃ u, get_current_user
        (some [{ oid := "oid0", name := "A", email := "a@x.com"
               , password_hash := some (Digest.hashed "pw123" 7)
               , role := some "owner", is_active := some true
               , organization := some "Acme" }]) 10
        (create_access_token { sub := some "a@x.com" } none 0) =
      Except.ok u ∧ u.email = "a@x.com" :=
  login_identity_roundtrip
    [{ oid := "oid0", name := "A", email := "a@x.com"
     , password_hash := some (Digest.hashed "pw123" 7)
     , role := some "owner", is_active := some true
     , organization := some "Acme" }] 0 10 "a@x.com" "pw123"
    { access_token := create_access_token { sub := some "a@x.com" } none 0 }
    rfl (by decide)

/-- Rewriting every record's `password_hash` commutes with the lookup by
email: the lookup matches the rewritten copy of the same record. -/
theorem find_one_by_email_map_hash (store : Store) (email : String)
    (f : AuthUserDoc → Option Digest) (doc : AuthUserDoc)
    (hfind : find_one_by_email store email = some doc) :
    find_one_by_email (store.map (fun d => { d with password_hash := f d })) email =
      some { doc with password_hash := f doc } := by
  have hfind2 : store.find? (fun d => d.email == email) = some doc := hfind
  unfold find_one_by_email
  rw [List.find?_map]
  have hcomp : ((fun d : AuthUserDoc => d.email == email) ∘
      fun d : AuthUserDoc => { d with password_hash := f d }) =
      fun d : AuthUserDoc => d.email == email := rfl
  rw [hcomp, hfind2]
  rfl

/-- C6: a successful resolution is built from the public fields of the
matched record alone — `public_of` reads `name`, `email`, `role`,
`is_active` and `organization`, never `password_hash` — and the result is
unchanged under arbitrary rewriting of every record's `password_hash`. -/
theorem identity_from_public_fields_only (store : Store) (now : Nat) (tok : Jwt)
    (u : UserPublic) (h : get_current_user (some store) now tok = Except.ok u) :
    (∃ doc email, find_one_by_email store email = some doc ∧ u = public_of doc) ∧
    (∀ f : AuthUserDoc → Option Digest,
      get_current_user (some (store.map (fun d => { d with password_hash := f d }))) now tok =
        Except.ok u) := by
  rw [get_current_user_ok_iff] at h
  obtain ⟨claims, email, doc, hdec, hsub, hfind, hu⟩ := h
  refine ⟨⟨doc, email, hfind, hu⟩, ?_⟩
  intro f
  rw [get_current_user_ok_iff]
  exact ⟨claims, email, { doc with password_hash := f doc }, hdec, hsub,
    find_one_by_email_map_hash store email f doc hfind, by rw [hu]; rfl⟩

/-- Witness for C6 at a concrete input: a resolution over a one-record
store, with its hypothesis discharged by evaluation. -/
theorem identity_from_public_fields_only_witness :
    (∃ doc email,
      find_one_by_email
          [{ oid := "oid0", name := "A", email := "a@x.com"
           , password_hash := some (Digest.hashed "pw123" 7)
           , role := some "owner", is_active := some true
           , organization := some "Acme" }] email = some doc ∧
      public_of
          { oid := "oid0", name := "A", email := "a@x.com"
          , password_hash := some (Digest.hashed "pw123" 7)
          , role := some "owner", is_active := some true
          , organization := some "Acme" } = public_of doc) ∧
    (∀ f : AuthUserDoc → Option Digest,
      get_current_user
          (some (List.map (fun d : AuthUserDoc => { d with password_hash := f d })
            [{ oid := "oid0", name := "A", email := "a@x.com"
             , password_hash := some (Digest.hashed "pw123" 7)
             , role := some "owner", is_active := some true
             , organization := some "Acme" }])) 0
          (Jwt.signed { sub := some "a@x.com", exp := 5 } SECRET_KEY) =
        Except.ok (public_of
          { oid := "oid0", name := "A", email := "a@x.com"
          , password_hash := some (Digest.hashed "pw123" 7)
          , role := some "owner", is_active := some true
          , organization := some "Acme" })) :=
  identity_from_public_fields_only
    [{ oid := "oid0", name := "A", email := "a@x.com"
     , password_hash := some (Digest.hashed "pw123" 7)
     , role := some "owner", is_active := some true
     , organization := some "Acme" }] 0
    (Jwt.signed { sub := some "a@x.com", exp := 5 } SECRET_KEY)
    (public_of
      { oid := "oid0", name := "A", email := "a@x.com"
      , password_hash := some (Digest.hashed "pw123" 7)
      , role := some "owner", is_active := some true
      , organization := some "Acme" }) rfl

/-- The `str` rendering of a generated Mongo id is never the empty
string. -/
theorem newObjectId_ne_empty (store : Store) : newObjectId store ≠ "" := by
  intro h
  have h2 := congrArg String.data h
  rw [newObjectId] at h2
  simp [String.data_append] at h2

/-- C8: registering an email with no existing record succeeds and returns
a public record whose id is the non-empty generated id and whose role is
"owner"; registering an email that already has a record fails with the
400 "Email already registered" error. -/
theorem register_fresh_ok_duplicate_400 (store : Store) (user : UserCreate) (salt : Nat) :
    (find_one_by_email store user.email = none →
      ∃ store2 pub, register (some store) user salt = Except.ok (store2, pub) ∧
        pub.id = some (newObjectId store) ∧ newObjectId store ≠ "" ∧
        pub.role = "owner") ∧
    (∀ doc, find_one_by_email store user.email = some doc →
      register (some store) user salt =
        Except.error { status_code := 400, detail := "Email already registered" }) := by
  constructor
  · intro hfind
    refine ⟨store ++
        [{ oid := newObjectId store, name := user.name, email := user.email
         , password_hash := some (get_password_hash user.password salt)
         , role := some "owner", is_active := some true
         , organization := user.organization }],
      { id := some (newObjectId store), name := user.name, email := user.email
      , role := "owner", is_active := true, organization := user.organization },
      ?_, rfl, newObjectId_ne_empty store, rfl⟩
    simp [register, hfind]
  · intro doc hfind
    simp [register, hfind]

/-- Witness for C8 at a concrete input: registering into the empty store
succeeds with a non-empty id and role "owner". -/
theorem register_fresh_ok_duplicate_400_witness :
    ∃ store2 pub,
      register (some []) { name := "A", email := "a@x.com", password := "pw123"
                         , organization := some "Acme" } 7 =
        Except.ok (store2, pub) ∧
      pub.id = some (newObjectId []) ∧ newObjectId [] ≠ "" ∧ pub.role = "owner" :=
  (register_fresh_ok_duplicate_400 []
    { name := "A", email := "a@x.com", password := "pw123", organization := some "Acme" }
    7).1 rfl

/-- C10: for every registration request — whose schema `UserCreate` has
no `role` or `is_active` field — the returned public record has role
"owner" and is active, and the single document appended to the store has
`role` "owner" and `is_active` true. -/
theorem register_forces_owner_active (store store2 : Store) (user : UserCreate)
    (salt : Nat) (pub : UserPublic)
    (h : register (some store) user salt = Except.ok (store2, pub)) :
    pub.role = "owner" ∧ pub.is_active = true ∧
    ∃ doc, store2 = store ++ [doc] ∧ doc.role = some "owner" ∧
      doc.is_active = some true := by
  cases hfind : find_one_by_email store user.email with
  | some d => simp [register, hfind] at h
  | none =>
    simp [register, hfind] at h
    obtain ⟨h1, h2⟩ := h
    subst h1
    subst h2
    exact ⟨rfl, rfl, _, rfl, rfl, rfl⟩

/-- Witness for C10 at a concrete input: registering into the empty store
forces role "owner" and active true on both the response and the stored
document. -/
theorem register_forces_owner_active_witness :
    ({ id := some "oid0", name := "A", email := "a@x.com", role := "owner"
     , is_active := true, organization := some "Acme" } : UserPublic).role = "owner" ∧
    ({ id := some "oid0", name := "A", email := "a@x.com", role := "owner"
     , is_active := true, organization := some "Acme" } : UserPublic).is_active = true ∧
    ∃ doc,
      ([{ oid := "oid0", name := "A", email := "a@x.com"
        , password_hash := some (Digest.hashed "pw123" 7)
        , role := some "owner", is_active := some true
        , organization := some "Acme" }] : Store) = [] ++ [doc] ∧
      doc.role = some "owner" ∧ doc.is_active = some true :=
  register_forces_owner_active []
    [{ oid := "oid0", name := "A", email := "a@x.com"
     , password_hash := some (Digest.hashed "pw123" 7)
     , role := some "owner", is_active := some true
     , organization := some "Acme" }]
    { name := "A", email := "a@x.com", password := "pw123", organization := some "Acme" } 7
    { id := some "oid0", name := "A", email := "a@x.com", role := "owner"
    , is_active := true, organization := some "Acme" }
    rfl

end FSM
